import Mathlib

set_option maxHeartbeats 1000000

/-!
Shallow embedding of the analytics client core from
`packages/core/src/analytics.ts` and `packages/core/src/store/userInfo.ts`:
the readiness-gated plugin registration mechanism (add / addPlugin /
onStorageReady), the flush scheduler (tick / flush), the identity
operations (identify / alias / reset), and the application-lifecycle
tracker (checkInstalledVersion / handleAppStateChange).

Collaborators that live outside the provided sources (the event builders in
events.ts, getPluginsWithFlush in util.ts, getUUID in uuid.ts, getContext
in context.ts, Timeline internals in timeline.ts) are modelled from the
spec; each such definition carries a doc comment saying so.
-/

namespace Analytics

/-- A trait value: JS object values as the claims use them
(strings or numbers). -/
inductive TVal
  | str (v : String)
  | num (n : Nat)
deriving DecidableEq, Repr

/-- A traits object: an association list of key/value pairs standing for a
JS object (keys unique in any object the program builds). -/
abbrev Traits := List (String × TVal)

/-- Key lookup in a traits object; the first occurrence wins, as in a JS
object whose keys are unique. -/
def trLookup : Traits → String → Option TVal
  | [], _ => none
  | (k, v) :: rest, key => if k = key then some v else trLookup rest key

/-- JS object spread of a then b: the keys of a in their order, each key
taking b's value when b has that key, followed by the keys of b that are
absent from a, in b's order. -/
def spread (a b : Traits) : Traits :=
  a.map (fun kv => (kv.1, match trLookup b kv.1 with | some v => v | none => kv.2))
    ++ b.filter (fun kv => (trLookup a kv.1).isNone)

/-- A plugin, carrying exactly what the claims observe: an identity, whether
it exposes a flush capability, whether its flush throws, whether its flush
reentrantly calls the client's flush, and which plugin ids its configure()
adds reentrantly to the client. -/
structure Plugin where
  pid : Nat
  hasFlush : Bool
  throws : Bool
  reflushes : Bool
  spawnIds : List Nat
deriving DecidableEq, Repr

/-- A plugin with no capabilities beyond being registered. -/
def Plugin.basic (id : Nat) : Plugin := ⟨id, false, false, false, []⟩

/-- Property values carried by track events (the lifecycle events use
strings, booleans and possibly-undefined context fields). -/
inductive PVal
  | str (v : String)
  | bool (v : Bool)
  | missing
deriving DecidableEq, Repr

/-- Events as built by the client methods (the payload part; stored user
identity is stamped on at dispatch, see `process`). Mirrors the event
builders of events.ts as exercised by the sources and tests: an identify
event carries only the trait set, an alias event carries the captured
anonymous id, the old user id and the new user id. -/
inductive SEvent
  | trackEv (name : String) (properties : List (String × PVal))
  | screenEv (name : String) (properties : List (String × PVal))
  | identifyEv (traits : Traits)
  | groupEv (groupId : String) (traits : Option Traits)
  | aliasEv (anonymousId : Nat) (userId : Option String) (newUserId : String)
deriving DecidableEq, Repr

/-- Modelled from the spec: applyRawEventData (events.ts, not under src/)
stamps an outgoing event with the currently stored user identity before the
Timeline processes it ("Orchestrator enriches with stored user identity"). -/
structure StampedEvent where
  ev : SEvent
  userId : Option String
  anonymousId : Nat
deriving DecidableEq, Repr

/-- The userInfo slice of the store (store/userInfo.ts UserInfoState);
identifiers issued by the injected generator are modelled as naturals. -/
structure UserInfo where
  anonymousId : Nat
  userId : Option String
  traits : Option Traits
deriving DecidableEq, Repr

/-- The app section of a context snapshot. -/
structure AppInfo where
  version : String
  build : String
deriving DecidableEq, Repr

/-- A persisted context snapshot; a previously persisted context may lack
the app section (previousContext?.app may be undefined). -/
structure Ctx where
  app : Option AppInfo
deriving DecidableEq, Repr

/-- The app-state values: the three platform values plus the client's
initial placeholder value. -/
inductive AppSt
  | unknown
  | active
  | inactive
  | background
deriving DecidableEq, Repr

/-- The client state: the SegmentClient fields the claims depend on, the
store slices it reads and writes (events, userInfo, context), and three
observation-only fields recording calls that cross into collaborators:
`processed` (events handed to Timeline.process, with their identity stamp),
`deliveries` (pids whose plugin.flush() was invoked, in invocation order)
and `flushCalls` (how many times flush() was entered). -/
structure ClientState where
  flushInterval : Nat
  trackAppLifecycleEvents : Bool
  secondsElapsed : Nat
  appState : AppSt
  destroyed : Bool
  isPendingUpload : Bool
  initDone : Bool
  timerActive : Bool
  plugins : List Plugin
  events : List SEvent
  userInfo : UserInfo
  storedContext : Option Ctx
  uuidCounter : Nat
  processed : List StampedEvent
  deliveries : List Nat
  flushCalls : Nat
deriving DecidableEq, Repr

/-- process(): stamps the incoming event with the stored user identity and
dispatches it into the timeline (recorded in `processed`). Note the source
has no destroyed-flag check here. -/
def process (s : ClientState) (e : SEvent) : ClientState :=
  { s with processed := s.processed ++ [⟨e, s.userInfo.userId, s.userInfo.anonymousId⟩] }

/-- track(): builds a track event and processes it (no destroyed check). -/
def track (s : ClientState) (eventName : String) (options : List (String × PVal)) : ClientState :=
  process s (.trackEv eventName options)

/-- screen(): builds a screen event and processes it (no destroyed check). -/
def screen (s : ClientState) (name : String) (options : List (String × PVal)) : ClientState :=
  process s (.screenEv name options)

/-- group(): builds a group event and processes it (no destroyed check). -/
def group (s : ClientState) (groupId : String) (groupTraits : Option Traits) : ClientState :=
  process s (.groupEv groupId groupTraits)

/-- identify(): merges the supplied traits over the stored ones with object
spread (an absent side spreads as the empty object), builds the identify
event from the merged traits (no user-id field in the event), persists the
new userId and the merged traits, then processes the event — so the stamp
applied by process reflects the already-persisted state. -/
def identify (s : ClientState) (userId : String) (userTraits : Option Traits) : ClientState :=
  process
    { s with userInfo :=
        { s.userInfo with userId := some userId,
                          traits := some (spread (s.userInfo.traits.getD [])
                                            (userTraits.getD [])) } }
    (SEvent.identifyEv (spread (s.userInfo.traits.getD []) (userTraits.getD [])))

/-- alias(): captures the current anonymous and user identifiers FIRST (the
alias event is built from the pre-call state s), THEN persists the new
userId, then processes the event. (Named aliasCall because alias is a
reserved command in Lean.) -/
def aliasCall (s : ClientState) (newUserId : String) : ClientState :=
  process { s with userInfo := { s.userInfo with userId := some newUserId } }
    (SEvent.aliasEv s.userInfo.anonymousId s.userInfo.userId newUserId)

/-- Modelled from the spec: getUUID (uuid.ts, not under src/) is the
injected identifier generator with a freshness contract; modelled as
drawing the current counter value and bumping the counter. -/
def getUUID (s : ClientState) : Nat × ClientState :=
  (s.uuidCounter, { s with uuidCounter := s.uuidCounter + 1 })

/-- reset(): replaces the stored userInfo with a fresh anonymous identifier
and cleared userId/traits (store/userInfo.ts reducers.reset). -/
def reset (s : ClientState) : ClientState :=
  { (getUUID s).2 with
      userInfo := { anonymousId := (getUUID s).1, userId := none, traits := none } }

/-- cleanup(): stops the timer, detaches subscriptions, marks the client
destroyed and no longer initialized. -/
def cleanup (s : ClientState) : ClientState :=
  { s with timerActive := false, destroyed := true, initDone := false }

/-- Modelled from the spec: getPluginsWithFlush (util.ts, not under src/)
enumerates the timeline's plugins exposing a flush capability. -/
def flushPlugins (s : ClientState) : List Plugin :=
  s.plugins.filter (fun p => p.hasFlush)

/-- One plugin.flush() invocation sequence over the enumerated plugins: each
plugin's flush is invoked in order (recorded in `deliveries`); a plugin may
reentrantly call the client's flush (`reflushFn`); a throwing plugin aborts
the iteration and its exception propagates — the source wraps the whole
forEach in try/finally with no per-plugin catch. Returns the state and the
uncaught exception (the throwing plugin's id), if any. -/
def runPlugins (reflushFn : ClientState → ClientState) : ClientState → List Plugin → ClientState × Option Nat
  | s, [] => (s, none)
  | s, p :: rest =>
    if p.throws then
      (if p.reflushes then reflushFn { s with deliveries := s.deliveries ++ [p.pid] }
       else { s with deliveries := s.deliveries ++ [p.pid] }, some p.pid)
    else
      runPlugins reflushFn
        (if p.reflushes then reflushFn { s with deliveries := s.deliveries ++ [p.pid] }
         else { s with deliveries := s.deliveries ++ [p.pid] })
        rest

/-- flush(), fuel-indexed: a plugin's flush may reentrantly call flush(),
and the reentrant call short-circuits on the in-flight flag, so the nesting
depth is at most one; `flush` below instantiates the fuel at 2, which is
exact. Mirrors the source: entered unconditionally (counted in the ghost
`flushCalls`); no-op while a flush is in flight; under try/finally, return
immediately when destroyed; otherwise zero the elapsed-seconds counter and,
when the buffered collection is non-empty, invoke every flush-capable
plugin; the finally always clears the in-flight flag, and an exception from
a plugin propagates out. -/
def flushAux : Nat → ClientState → ClientState × Option Nat
  | 0, s => (s, none)
  | fuel + 1, s =>
    if s.isPendingUpload then ({ s with flushCalls := s.flushCalls + 1 }, none)
    else if s.destroyed then
      ({ s with flushCalls := s.flushCalls + 1, isPendingUpload := false }, none)
    else if 0 < s.events.length then
      ({ (runPlugins (fun t => (flushAux fuel t).1)
            { s with flushCalls := s.flushCalls + 1, isPendingUpload := true,
                     secondsElapsed := 0 }
            (flushPlugins s)).1 with isPendingUpload := false },
       (runPlugins (fun t => (flushAux fuel t).1)
            { s with flushCalls := s.flushCalls + 1, isPendingUpload := true,
                     secondsElapsed := 0 }
            (flushPlugins s)).2)
    else
      ({ s with flushCalls := s.flushCalls + 1, isPendingUpload := false,
                secondsElapsed := 0 }, none)

/-- flush() as called by the client; fuel 2 covers the maximal reentrant
nesting depth (a direct call plus one reentrant call, which hits the
in-flight guard). -/
def flush (s : ClientState) : ClientState × Option Nat :=
  flushAux 2 s

/-- tick(): runs every second; flushes when the elapsed counter would reach
the configured flushInterval, otherwise accumulates the counter. -/
def tick (s : ClientState) : ClientState :=
  if s.flushInterval ≤ s.secondsElapsed + 1 then (flush s).1
  else { s with secondsElapsed := s.secondsElapsed + 1 }

/-- k consecutive timer ticks. -/
def tickN : Nat → ClientState → ClientState
  | 0, s => s
  | k + 1, s => tick (tickN k s)

/-- The Application Installed event built by checkInstalledVersion. -/
def installedEvent (current : AppInfo) : SEvent :=
  .trackEv "Application Installed"
    [("version", .str current.version), ("build", .str current.build)]

/-- The Application Updated event built by checkInstalledVersion. -/
def updatedEvent (current previous : AppInfo) : SEvent :=
  .trackEv "Application Updated"
    [("version", .str current.version), ("build", .str current.build),
     ("previous_version", .str previous.version), ("previous_build", .str previous.build)]

/-- The launch-time Application Opened event built by checkInstalledVersion. -/
def openedAtLaunchEvent (current : AppInfo) : SEvent :=
  .trackEv "Application Opened"
    [("from_background", .bool false),
     ("version", .str current.version), ("build", .str current.build)]

/-- checkInstalledVersion(): captures a fresh context (`current`, supplied
by the injected getContext), persists it unconditionally, and — only when
lifecycle tracking is enabled — emits Installed (no previous app context)
or Updated (version changed), followed in every enabled case by
Opened(from_background = false). -/
def checkInstalledVersion (s : ClientState) (current : AppInfo) : ClientState :=
  if s.trackAppLifecycleEvents = false then { s with storedContext := some ⟨some current⟩ }
  else
    process
      (match s.storedContext with
       | none => process { s with storedContext := some ⟨some current⟩ }
           (installedEvent current)
       | some previous =>
         match previous.app with
         | none => process { s with storedContext := some ⟨some current⟩ }
             (installedEvent current)
         | some previousApp =>
           if current.version ≠ previousApp.version then
             process { s with storedContext := some ⟨some current⟩ }
               (updatedEvent current previousApp)
           else { s with storedContext := some ⟨some current⟩ })
      (openedAtLaunchEvent current)

/-- An optional context field as a track-event property value. -/
def optPVal : Option String → PVal
  | some v => .str v
  | none => .missing

/-- The from-background Application Opened event built by
handleAppStateChange from the stored context. -/
def openedFromBackgroundEvent (context : Option Ctx) : SEvent :=
  .trackEv "Application Opened"
    [("from_background", .bool true),
     ("version", optPVal ((context.bind Ctx.app).map AppInfo.version)),
     ("build", optPVal ((context.bind Ctx.app).map AppInfo.build))]

/-- The Application Backgrounded event (no payload). -/
def backgroundedEvent : SEvent := .trackEv "Application Backgrounded" []

/-- handleAppStateChange(): when lifecycle tracking is enabled, emits
Opened(from_background = true) on an inactive/background to active
transition and Backgrounded on an active to inactive/background transition;
in every case the last-known app state is updated to the new value. -/
def handleAppStateChange (s : ClientState) (nextAppState : AppSt) : ClientState :=
  { (if s.trackAppLifecycleEvents then
       if (s.appState = .inactive ∨ s.appState = .background) ∧ nextAppState = .active then
         process s (openedFromBackgroundEvent s.storedContext)
       else if s.appState = .active ∧ (nextAppState = .inactive ∨ nextAppState = .background)
       then
         process s backgroundedEvent
       else s
     else s) with appState := nextAppState }

/-- The readiness-gate slice of the client: the gate flag, the reentrancy
guard, the pending queue, the Timeline's registered pids in registration
order, the pids configure() was called on in order, and whether the
readiness watcher is still subscribed. -/
structure GateState where
  isStorageReady : Bool
  isAddingPlugins : Bool
  pluginsToAdd : List Plugin
  timeline : List Nat
  configured : List Nat
  subscribed : Bool
deriving DecidableEq, Repr

/-- A reentrant add() of a freshly constructed plugin (one with no further
spawns), made from inside another plugin's configure(). Behaves exactly as
add() does on such a plugin (see `addSpawned_eq_add`). -/
def addSpawned (g : GateState) (q : Plugin) : GateState :=
  if g.isStorageReady = false then { g with pluginsToAdd := g.pluginsToAdd ++ [q] }
  else { g with configured := g.configured ++ [q.pid], timeline := g.timeline ++ [q.pid] }

/-- plugin.configure(client): records the configure call, then performs the
add() calls the plugin makes reentrantly. -/
def configure (g : GateState) (p : Plugin) : GateState :=
  p.spawnIds.foldl (fun acc i => addSpawned acc (Plugin.basic i))
    { g with configured := g.configured ++ [p.pid] }

/-- addPlugin(): plugin.configure(this) then Timeline.add(plugin). -/
def addPlugin (g : GateState) (p : Plugin) : GateState :=
  { configure g p with timeline := (configure g p).timeline ++ [p.pid] }

/-- add(): queue the plugin while storage is not ready, else register it
live via addPlugin. -/
def add (g : GateState) (p : Plugin) : GateState :=
  if g.isStorageReady = false then { g with pluginsToAdd := g.pluginsToAdd ++ [p] }
  else addPlugin g p

/-- onStorageReady(): on a true signal with a non-empty queue (and not
already draining), drain the queue via addPlugin — the iteration ranges
over the queue as it was when the drain began, as a JS forEach does — then
replace the queue by the empty array (dropping anything queued reentrantly
during the drain), open the gate and unsubscribe the readiness watcher. -/
def onStorageReady (g : GateState) (isReady : Bool) : GateState :=
  if isReady ∧ 0 < g.pluginsToAdd.length ∧ g.isAddingPlugins = false then
    { g.pluginsToAdd.foldl addPlugin { g with isAddingPlugins := true } with
        pluginsToAdd := [], isStorageReady := true, subscribed := false,
        isAddingPlugins := false }
  else g

/-- External stimuli of the readiness gate: public add() calls and readiness
signals from the store. -/
inductive GateOp
  | addOp (p : Plugin)
  | signal (b : Bool)
deriving DecidableEq, Repr

/-- One external stimulus: a readiness signal reaches onStorageReady only
while the watcher is subscribed. -/
def gateStep (g : GateState) : GateOp → GateState
  | .addOp p => add g p
  | .signal b => if g.subscribed then onStorageReady g b else g

/-- A sequence of external stimuli applied in order. -/
def runGate (g : GateState) (ops : List GateOp) : GateState :=
  ops.foldl gateStep g

/-- Gate state right after construction/init when storage is not yet ready:
gate closed, empty queue, readiness watcher subscribed. -/
def gateInit : GateState :=
  ⟨false, false, [], [], [], true⟩

/-- The C1 scenario: add() calls, one true readiness signal, more add()
calls. -/
def gateScenario (pre post : List Plugin) : List GateOp :=
  pre.map GateOp.addOp ++ [GateOp.signal true] ++ post.map GateOp.addOp

/-- The prefix of a plugin list that actually gets its flush() invoked in
one cycle: everything up to and including the first throwing plugin. -/
def upToThrow : List Plugin → List Plugin
  | [] => []
  | p :: rest => if p.throws then [p] else p :: upToThrow rest

/-- The id of the first throwing plugin of the list, if any: the exception
that escapes the flush cycle. -/
def firstThrow : List Plugin → Option Nat
  | [] => none
  | p :: rest => if p.throws then some p.pid else firstThrow rest

/-- A concrete client state used by witnesses and counterexamples: a live
client with lifecycle tracking enabled, a 10-second flush interval, no
plugins, an empty buffer and a fresh anonymous identity. -/
def baseState : ClientState :=
  { flushInterval := 10, trackAppLifecycleEvents := true, secondsElapsed := 0,
    appState := .unknown, destroyed := false, isPendingUpload := false,
    initDone := true, timerActive := true, plugins := [], events := [],
    userInfo := ⟨100, none, none⟩, storedContext := none, uuidCounter := 101,
    processed := [], deliveries := [], flushCalls := 0 }

/-! ## Readiness-gate lemmas -/

/-- A reentrant add of a spawn-free plugin coincides with a public add of
that plugin; addSpawned is just add specialized to such plugins. -/
theorem addSpawned_eq_add (g : GateState) (i : Nat) :
    addSpawned g (Plugin.basic i) = add g (Plugin.basic i) := rfl

theorem addSpawned_isStorageReady (g : GateState) (q : Plugin) :
    (addSpawned g q).isStorageReady = g.isStorageReady := by
  unfold addSpawned; split <;> rfl

theorem foldl_addSpawned_isStorageReady (l : List Nat) :
    ∀ g : GateState,
      (l.foldl (fun acc i => addSpawned acc (Plugin.basic i)) g).isStorageReady
        = g.isStorageReady := by
  induction l with
  | nil => intro g; rfl
  | cons i rest ih =>
    intro g
    simp only [List.foldl_cons]
    rw [ih, addSpawned_isStorageReady]

theorem addPlugin_isStorageReady (g : GateState) (p : Plugin) :
    (addPlugin g p).isStorageReady = g.isStorageReady := by
  unfold addPlugin configure
  simp only
  rw [foldl_addSpawned_isStorageReady]

theorem gateStep_isStorageReady (g : GateState) (op : GateOp)
    (h : g.isStorageReady = true) : (gateStep g op).isStorageReady = true := by
  cases op with
  | addOp p =>
    simp only [gateStep, add, h]
    simp only [Bool.true_eq_false, if_false]
    rw [addPlugin_isStorageReady, h]
  | signal b =>
    simp only [gateStep]
    split
    · unfold onStorageReady
      split
      · rfl
      · exact h
    · exact h

theorem runGate_isStorageReady (ops : List GateOp) :
    ∀ g : GateState, g.isStorageReady = true →
      (runGate g ops).isStorageReady = true := by
  induction ops with
  | nil => intro g h; exact h
  | cons op rest ih =>
    intro g h
    simp only [runGate, List.foldl_cons]
    exact ih _ (gateStep_isStorageReady g op h)

theorem runGate_cons (g : GateState) (op : GateOp) (ops : List GateOp) :
    runGate g (op :: ops) = runGate (gateStep g op) ops := rfl

/-- While the gate is closed, a run of add() calls only queues the plugins,
in order. -/
theorem runGate_adds_notReady (ps : List Plugin) :
    ∀ g : GateState, g.isStorageReady = false →
      runGate g (ps.map GateOp.addOp)
        = { g with pluginsToAdd := g.pluginsToAdd ++ ps } := by
  induction ps with
  | nil => intro g h; simp [runGate]
  | cons p rest ih =>
    intro g h
    rw [List.map_cons, runGate_cons]
    have hstep : gateStep g (GateOp.addOp p)
        = { g with pluginsToAdd := g.pluginsToAdd ++ [p] } := by
      simp [gateStep, add, h]
    rw [hstep, ih { g with pluginsToAdd := g.pluginsToAdd ++ [p] } h]
    simp

/-- Once the gate is open, a run of add() calls on spawn-free plugins
configures and registers each immediately, in order. -/
theorem runGate_adds_ready (ps : List Plugin) :
    ∀ g : GateState, g.isStorageReady = true → (∀ p ∈ ps, p.spawnIds = []) →
      runGate g (ps.map GateOp.addOp)
        = { g with configured := g.configured ++ ps.map Plugin.pid,
                   timeline := g.timeline ++ ps.map Plugin.pid } := by
  induction ps with
  | nil => intro g h _; simp [runGate]
  | cons p rest ih =>
    intro g h hsp
    have hp : p.spawnIds = [] := hsp p (List.mem_cons_self p rest)
    rw [List.map_cons, runGate_cons]
    have hstep : gateStep g (GateOp.addOp p)
        = { g with configured := g.configured ++ [p.pid],
                   timeline := g.timeline ++ [p.pid] } := by
      simp [gateStep, add, h, addPlugin, configure, hp]
    rw [hstep, ih { g with configured := g.configured ++ [p.pid],
                           timeline := g.timeline ++ [p.pid] } h
          (fun q hq => hsp q (List.mem_cons_of_mem p hq))]
    simp

/-- Draining a queue of spawn-free plugins with addPlugin configures and
registers each, in order, touching nothing else. -/
theorem foldl_addPlugin_basic (ps : List Plugin) :
    ∀ g : GateState, (∀ p ∈ ps, p.spawnIds = []) →
      ps.foldl addPlugin g
        = { g with configured := g.configured ++ ps.map Plugin.pid,
                   timeline := g.timeline ++ ps.map Plugin.pid } := by
  induction ps with
  | nil => intro g _; simp
  | cons p rest ih =>
    intro g hsp
    have hp : p.spawnIds = [] := hsp p (List.mem_cons_self p rest)
    simp only [List.foldl_cons, List.map_cons]
    have hstep : addPlugin g p
        = { g with configured := g.configured ++ [p.pid],
                   timeline := g.timeline ++ [p.pid] } := by
      simp [addPlugin, configure, hp]
    rw [hstep]
    rw [show List.foldl addPlugin _ rest = _ from
      ih _ (fun q hq => hsp q (List.mem_cons_of_mem p hq))]
    simp

theorem runGate_append (g : GateState) (xs ys : List GateOp) :
    runGate g (xs ++ ys) = runGate (runGate g xs) ys := by
  simp [runGate, List.foldl_append]

/-- C1 (amended): for add() calls interleaved around a single true
readiness signal, PROVIDED at least one plugin is queued when the signal
arrives and no add() happens reentrantly during the drain, every added
plugin is configured and registered in the Timeline exactly once, in the
original order of the add() calls, and the gate switches permanently to
Ready. (As stated the claim is false: with an empty queue at signal time
the gate never opens — see the counterexample — and a plugin add()ed
reentrantly during the drain is discarded when the queue is cleared.) -/
theorem C1_gate_registers_each_added_plugin_once_in_order
    (pre post : List Plugin) (hpre : pre ≠ [])
    (hsp : ∀ p ∈ pre ++ post, p.spawnIds = []) :
    (runGate gateInit (gateScenario pre post)).timeline = (pre ++ post).map Plugin.pid ∧
    (runGate gateInit (gateScenario pre post)).configured = (pre ++ post).map Plugin.pid ∧
    (runGate gateInit (gateScenario pre post)).isStorageReady = true ∧
    (runGate gateInit (gateScenario pre post)).pluginsToAdd = [] ∧
    ∀ more : List GateOp,
      (runGate (runGate gateInit (gateScenario pre post)) more).isStorageReady = true := by
  have hpre' : 0 < pre.length := List.length_pos.mpr hpre
  have hsp1 : ∀ p ∈ pre, p.spawnIds = [] :=
    fun p hp => hsp p (List.mem_append_left _ hp)
  have hsp2 : ∀ p ∈ post, p.spawnIds = [] :=
    fun p hp => hsp p (List.mem_append_right _ hp)
  have h1 : runGate gateInit (pre.map GateOp.addOp)
      = (⟨false, false, pre, [], [], true⟩ : GateState) := by
    rw [runGate_adds_notReady pre gateInit rfl]
    rfl
  have h2 : runGate (⟨false, false, pre, [], [], true⟩ : GateState) [GateOp.signal true]
      = ⟨true, false, [], pre.map Plugin.pid, pre.map Plugin.pid, false⟩ := by
    have e : runGate (⟨false, false, pre, [], [], true⟩ : GateState) [GateOp.signal true]
        = onStorageReady ⟨false, false, pre, [], [], true⟩ true := rfl
    rw [e]
    unfold onStorageReady
    rw [if_pos ⟨rfl, hpre', rfl⟩]
    rw [foldl_addPlugin_basic pre _ hsp1]
    rfl
  have h3 : runGate (⟨true, false, [], pre.map Plugin.pid, pre.map Plugin.pid, false⟩ :
        GateState) (post.map GateOp.addOp)
      = ⟨true, false, [], (pre ++ post).map Plugin.pid, (pre ++ post).map Plugin.pid,
          false⟩ := by
    rw [runGate_adds_ready post _ rfl hsp2]
    simp [List.map_append]
  have hrun : runGate gateInit (gateScenario pre post)
      = ⟨true, false, [], (pre ++ post).map Plugin.pid, (pre ++ post).map Plugin.pid,
          false⟩ := by
    unfold gateScenario
    rw [runGate_append, runGate_append, h1, h2, h3]
  exact ⟨by rw [hrun], by rw [hrun], by rw [hrun], by rw [hrun],
    fun more => runGate_isStorageReady more _ (by rw [hrun])⟩

/-- C1 counterexample: the claim as stated includes add() calls made when
the pending queue was empty at signal time. With no add() before the
signal, the signal is swallowed by the queue-non-empty guard of
onStorageReady, so a plugin added afterwards is only queued: it is never
configured or registered and the gate never switches to Ready. -/
theorem C1_counterexample :
    (runGate gateInit [GateOp.signal true, GateOp.addOp (Plugin.basic 1)]).timeline = [] ∧
    (runGate gateInit [GateOp.signal true, GateOp.addOp (Plugin.basic 1)]).configured = [] ∧
    (runGate gateInit [GateOp.signal true, GateOp.addOp (Plugin.basic 1)]).isStorageReady
        = false ∧
    (runGate gateInit [GateOp.signal true, GateOp.addOp (Plugin.basic 1)]).pluginsToAdd
        = [Plugin.basic 1] := by
  decide

/-- C1 witness: one plugin added before the readiness signal and one after
are both registered, in order, and the gate is Ready. -/
theorem C1_witness :
    (runGate gateInit (gateScenario [Plugin.basic 1] [Plugin.basic 2])).timeline = [1, 2] ∧
    (runGate gateInit (gateScenario [Plugin.basic 1] [Plugin.basic 2])).isStorageReady
        = true := by
  have h := C1_gate_registers_each_added_plugin_once_in_order
    [Plugin.basic 1] [Plugin.basic 2] (by simp) (by decide)
  exact ⟨h.1, h.2.2.1⟩

/-! ## Flush-scheduler lemmas -/

/-- A flush entered while one is in flight only bumps the ghost call
counter: no delivery, no exception, no state change. -/
theorem flushAux_pending (fuel : Nat) (s : ClientState) (h : s.isPendingUpload = true) :
    flushAux (fuel + 1) s = ({ s with flushCalls := s.flushCalls + 1 }, none) := by
  simp [flushAux, h]

theorem flushAux_pending_cases (fuel : Nat) (s : ClientState) (h : s.isPendingUpload = true) :
    (flushAux fuel s).1 = s ∨
      (flushAux fuel s).1 = { s with flushCalls := s.flushCalls + 1 } := by
  cases fuel with
  | zero => exact Or.inl rfl
  | succ f => exact Or.inr (by rw [flushAux_pending f s h])

/-- A flush on a destroyed client returns from inside the try block before
touching the elapsed counter or any plugin; the finally resets the
in-flight flag. -/
theorem flushAux_destroyed (fuel : Nat) (s : ClientState) (h : s.destroyed = true) :
    flushAux (fuel + 1) s = ({ s with flushCalls := s.flushCalls + 1 }, none) := by
  by_cases hp : s.isPendingUpload = true
  · exact flushAux_pending fuel s hp
  · have hp' : s.isPendingUpload = false := by
      revert hp; cases s.isPendingUpload <;> simp
    rw [show flushAux (fuel + 1) s
        = ({ s with flushCalls := s.flushCalls + 1, isPendingUpload := false }, none)
      from by simp [flushAux, h, hp']]
    rw [show ({ s with flushCalls := s.flushCalls + 1, isPendingUpload := false } :
        ClientState) = { s with flushCalls := s.flushCalls + 1 } from by rw [← hp']]

/-- Running the flush-capable plugins from a mid-flush state (in-flight
flag set) records exactly the deliveries up to and including the first
throwing plugin, returns that plugin's exception, and — because any
reentrant flush hits the in-flight guard — changes nothing else besides
the ghost call counter. -/
theorem runPlugins_pending (fuel : Nat) (ps : List Plugin) :
    ∀ s : ClientState, s.isPendingUpload = true →
      ∃ c : Nat,
        runPlugins (fun t => (flushAux fuel t).1) s ps
          = ({ s with deliveries := s.deliveries ++ (upToThrow ps).map Plugin.pid,
                      flushCalls := c }, firstThrow ps) := by
  induction ps with
  | nil =>
    intro s _
    refine ⟨s.flushCalls, ?_⟩
    simp [runPlugins, upToThrow, firstThrow]
  | cons p rest ih =>
    intro s h
    have h1 : ({ s with deliveries := s.deliveries ++ [p.pid] } :
        ClientState).isPendingUpload = true := h
    obtain ⟨c2, hc2⟩ :
        ∃ c2 : Nat,
          (if p.reflushes then
              (flushAux fuel { s with deliveries := s.deliveries ++ [p.pid] }).1
           else { s with deliveries := s.deliveries ++ [p.pid] })
            = { s with deliveries := s.deliveries ++ [p.pid], flushCalls := c2 } := by
      by_cases hr : p.reflushes = true
      · rw [if_pos hr]
        rcases flushAux_pending_cases fuel _ h1 with hc | hc
        · exact ⟨s.flushCalls, by rw [hc]⟩
        · exact ⟨s.flushCalls + 1, by rw [hc]⟩
      · rw [if_neg hr]
        exact ⟨s.flushCalls, rfl⟩
    by_cases ht : p.throws = true
    · refine ⟨c2, ?_⟩
      simp only [runPlugins]
      rw [if_pos ht, hc2]
      simp [upToThrow, firstThrow, ht]
    · have h2 : ({ s with deliveries := s.deliveries ++ [p.pid], flushCalls := c2 } :
          ClientState).isPendingUpload = true := h
      obtain ⟨c, hc⟩ := ih { s with deliveries := s.deliveries ++ [p.pid], flushCalls := c2 } h2
      refine ⟨c, ?_⟩
      simp only [runPlugins]
      rw [if_neg ht, hc2, hc]
      simp [upToThrow, firstThrow, ht, List.append_assoc]

/-- Unfolding a flush that actually proceeds (not in flight, not destroyed,
non-empty buffer). -/
theorem flush_proceed_unfold (s : ClientState) (hp : s.isPendingUpload = false)
    (hd : s.destroyed = false) (he : 0 < s.events.length) :
    flush s
      = ({ (runPlugins (fun t => (flushAux 1 t).1)
              { s with flushCalls := s.flushCalls + 1, isPendingUpload := true,
                       secondsElapsed := 0 }
              (flushPlugins s)).1 with isPendingUpload := false },
         (runPlugins (fun t => (flushAux 1 t).1)
              { s with flushCalls := s.flushCalls + 1, isPendingUpload := true,
                       secondsElapsed := 0 }
              (flushPlugins s)).2) := by
  show flushAux (1 + 1) s = _
  simp [flushAux, hp, hd, he]

theorem flush_pending (s : ClientState) (h : s.isPendingUpload = true) :
    flush s = ({ s with flushCalls := s.flushCalls + 1 }, none) :=
  flushAux_pending 1 s h

theorem flush_destroyed (s : ClientState) (h : s.destroyed = true) :
    flush s = ({ s with flushCalls := s.flushCalls + 1 }, none) :=
  flushAux_destroyed 1 s h

theorem flush_empty (s : ClientState) (hp : s.isPendingUpload = false)
    (hd : s.destroyed = false) (he : ¬0 < s.events.length) :
    flush s = ({ s with flushCalls := s.flushCalls + 1, isPendingUpload := false,
                         secondsElapsed := 0 }, none) := by
  show flushAux (1 + 1) s = _
  simp [flushAux, hp, hd, he]

/-- A flush over a non-empty buffer: counter zeroed, deliveries recorded up
to the first throwing plugin, that plugin's exception escaping. -/
theorem flush_proceeds (s : ClientState) (hp : s.isPendingUpload = false)
    (hd : s.destroyed = false) (he : 0 < s.events.length) :
    ∃ c : Nat,
      flush s
        = ({ s with secondsElapsed := 0,
                    deliveries := s.deliveries ++ (upToThrow (flushPlugins s)).map Plugin.pid,
                    isPendingUpload := false, flushCalls := c },
           firstThrow (flushPlugins s)) := by
  obtain ⟨c, hc⟩ := runPlugins_pending 1 (flushPlugins s)
      { s with flushCalls := s.flushCalls + 1, isPendingUpload := true, secondsElapsed := 0 }
      rfl
  refine ⟨c, ?_⟩
  rw [flush_proceed_unfold s hp hd he, hc]

theorem flush_deliveries_spec (s : ClientState) (hp : s.isPendingUpload = false)
    (hd : s.destroyed = false) (he : 0 < s.events.length) :
    (flush s).1.deliveries = s.deliveries ++ (upToThrow (flushPlugins s)).map Plugin.pid ∧
    (flush s).2 = firstThrow (flushPlugins s) := by
  obtain ⟨c, hc⟩ := flush_proceeds s hp hd he
  rw [hc]
  exact ⟨rfl, rfl⟩

theorem flush_secondsElapsed_zero (s : ClientState) (hp : s.isPendingUpload = false)
    (hd : s.destroyed = false) : (flush s).1.secondsElapsed = 0 := by
  by_cases he : 0 < s.events.length
  · obtain ⟨c, hc⟩ := flush_proceeds s hp hd he
    rw [hc]
  · rw [flush_empty s hp hd he]

theorem flush_skip_secondsElapsed (s : ClientState)
    (h : s.isPendingUpload = true ∨ s.destroyed = true) :
    (flush s).1.secondsElapsed = s.secondsElapsed := by
  rcases h with h | h
  · rw [flush_pending s h]
  · rw [flush_destroyed s h]

theorem runPlugins_flushCalls (fuel : Nat) :
    ∀ (ps : List Plugin) (s : ClientState), (∀ p ∈ ps, p.reflushes = false) →
      (runPlugins (fun t => (flushAux fuel t).1) s ps).1.flushCalls = s.flushCalls := by
  intro ps
  induction ps with
  | nil => intro s _; rfl
  | cons p rest ih =>
    intro s hnr
    have hrn : ¬(p.reflushes = true) := by
      simp [hnr p (List.mem_cons_self p rest)]
    by_cases ht : p.throws = true
    · simp only [runPlugins]
      rw [if_pos ht, if_neg hrn]
    · simp only [runPlugins]
      rw [if_neg ht, if_neg hrn]
      exact ih _ (fun q hq => hnr q (List.mem_cons_of_mem p hq))

theorem flush_flushCalls (s : ClientState) (hnr : ∀ p ∈ s.plugins, p.reflushes = false) :
    (flush s).1.flushCalls = s.flushCalls + 1 := by
  by_cases hp : s.isPendingUpload = true
  · rw [flush_pending s hp]
  · have hp' : s.isPendingUpload = false := by
      revert hp; cases s.isPendingUpload <;> simp
    by_cases hd : s.destroyed = true
    · rw [flush_destroyed s hd]
    · have hd' : s.destroyed = false := by
        revert hd; cases s.destroyed <;> simp
      by_cases he : 0 < s.events.length
      · rw [flush_proceed_unfold s hp' hd' he]
        show (runPlugins (fun t => (flushAux 1 t).1)
            { s with flushCalls := s.flushCalls + 1, isPendingUpload := true,
                     secondsElapsed := 0 }
            (flushPlugins s)).1.flushCalls = s.flushCalls + 1
        rw [runPlugins_flushCalls 1 (flushPlugins s) _
              (fun q hq => hnr q (List.mem_of_mem_filter hq))]
      · rw [flush_empty s hp' hd' he]

theorem tick_noFlush (s : ClientState) (h : s.secondsElapsed + 1 < s.flushInterval) :
    tick s = { s with secondsElapsed := s.secondsElapsed + 1 } := by
  simp only [tick]
  rw [if_neg (by omega)]

/-- Below the interval, k ticks only accumulate the elapsed counter. -/
theorem tickN_counts (s : ClientState) (n : Nat) (h0 : s.secondsElapsed = 0)
    (hfi : s.flushInterval = n) (h1 : 1 ≤ n) :
    ∀ k, k ≤ n - 1 → tickN k s = { s with secondsElapsed := k } := by
  intro k
  induction k with
  | zero =>
    intro _
    show s = { s with secondsElapsed := 0 }
    rw [← h0]
  | succ k ih =>
    intro hk
    have hk' : k ≤ n - 1 := Nat.le_of_succ_le hk
    show tick (tickN k s) = _
    rw [ih hk']
    rw [tick_noFlush { s with secondsElapsed := k } (by show k + 1 < s.flushInterval; omega)]

/-- The n-th tick calls flush exactly once. -/
theorem tickN_triggers (s : ClientState) (n : Nat) (h0 : s.secondsElapsed = 0)
    (hfi : s.flushInterval = n) (h1 : 1 ≤ n)
    (hnr : ∀ p ∈ s.plugins, p.reflushes = false) :
    (tickN n s).flushCalls = s.flushCalls + 1 := by
  obtain ⟨m, rfl⟩ : ∃ m, n = m + 1 := ⟨n - 1, by omega⟩
  show (tick (tickN m s)).flushCalls = s.flushCalls + 1
  rw [tickN_counts s (m + 1) h0 hfi h1 m (by omega)]
  rw [show tick { s with secondsElapsed := m } = (flush { s with secondsElapsed := m }).1
    from by
      simp only [tick]
      rw [if_pos (by show s.flushInterval ≤ m + 1; omega)]]
  rw [flush_flushCalls { s with secondsElapsed := m } (fun q hq => hnr q hq)]

theorem upToThrow_noThrow : ∀ ps : List Plugin, (∀ p ∈ ps, p.throws = false) →
    upToThrow ps = ps := by
  intro ps
  induction ps with
  | nil => intro _; rfl
  | cons p rest ih =>
    intro h
    have hp : p.throws = false := h p (List.mem_cons_self p rest)
    simp [upToThrow, hp, ih (fun q hq => h q (List.mem_cons_of_mem p hq))]

theorem firstThrow_noThrow : ∀ ps : List Plugin, (∀ p ∈ ps, p.throws = false) →
    firstThrow ps = none := by
  intro ps
  induction ps with
  | nil => intro _; rfl
  | cons p rest ih =>
    intro h
    have hp : p.throws = false := h p (List.mem_cons_self p rest)
    simp [firstThrow, hp, ih (fun q hq => h q (List.mem_cons_of_mem p hq))]

/-- C2 (amended): after cleanup() only flush() is a no-op — it alone checks
the destroyed flag, returning with no delivery, no exception and no state
change (beyond the ghost call counter). The other public operations do not
check the flag: track() after cleanup() still builds its event and
dispatches it into the timeline. -/
theorem C2_cleanup_only_stops_flush (s : ClientState) (eventName : String)
    (options : List (String × PVal)) :
    (flush (cleanup s)).1 = { cleanup s with flushCalls := (cleanup s).flushCalls + 1 } ∧
    (flush (cleanup s)).2 = none ∧
    (track (cleanup s) eventName options).processed
      = (cleanup s).processed
        ++ [⟨SEvent.trackEv eventName options, s.userInfo.userId, s.userInfo.anonymousId⟩] := by
  refine ⟨?_, ?_, rfl⟩
  · rw [flush_destroyed (cleanup s) rfl]
  · rw [flush_destroyed (cleanup s) rfl]

/-- C2 counterexample: the claim says every public operation after
cleanup() is a no-op because it checks the destroyed flag; but track()
after cleanup() still dispatches its event into the timeline. -/
theorem C2_counterexample :
    (cleanup baseState).destroyed = true ∧
    (track (cleanup baseState) "Checkout Started" []).processed
      ≠ (cleanup baseState).processed := by
  decide

/-- C3 (amended): during a flush over a non-empty buffer the flush-capable
plugins are invoked in order only up to and including the first one that
throws; the exception is not caught per-plugin but escapes flush() (the
in-flight flag still being reset by the finally), so the remaining plugins
are not invoked in that cycle. Only when no plugin throws is every
flush-capable plugin invoked, exactly once each. -/
theorem C3_flush_throw_not_isolated (s : ClientState) (hp : s.isPendingUpload = false)
    (hd : s.destroyed = false) (he : 0 < s.events.length) :
    (flush s).1.deliveries = s.deliveries ++ (upToThrow (flushPlugins s)).map Plugin.pid ∧
    (flush s).2 = firstThrow (flushPlugins s) ∧
    ((∀ p ∈ flushPlugins s, p.throws = false) →
      (flush s).1.deliveries = s.deliveries ++ (flushPlugins s).map Plugin.pid ∧
      (flush s).2 = none) := by
  obtain ⟨hdel, hexc⟩ := flush_deliveries_spec s hp hd he
  exact ⟨hdel, hexc, fun hnt =>
    ⟨by rw [hdel, upToThrow_noThrow _ hnt], by rw [hexc, firstThrow_noThrow _ hnt]⟩⟩

/-- C3 counterexample: two flush-capable plugins, the first of which
throws. The claim says both are invoked and the failure is caught; in fact
only plugin 1 is invoked (plugin 2 never is) and the exception escapes
flush(). -/
theorem C3_counterexample :
    (flush { baseState with
        plugins := [⟨1, true, true, false, []⟩, ⟨2, true, false, false, []⟩],
        events := [SEvent.trackEv "Order Completed" []] }).1.deliveries = [1] ∧
    2 ∉ (flush { baseState with
        plugins := [⟨1, true, true, false, []⟩, ⟨2, true, false, false, []⟩],
        events := [SEvent.trackEv "Order Completed" []] }).1.deliveries ∧
    (flush { baseState with
        plugins := [⟨1, true, true, false, []⟩, ⟨2, true, false, false, []⟩],
        events := [SEvent.trackEv "Order Completed" []] }).2 = some 1 := by
  decide

/-- C3 witness: three flush-capable plugins with the middle one throwing:
plugins 1 and 2 are invoked, plugin 3 is not, and the exception of plugin 2
escapes. -/
theorem C3_witness :
    (flush { baseState with
        plugins := [⟨1, true, false, false, []⟩, ⟨2, true, true, false, []⟩,
                    ⟨3, true, false, false, []⟩],
        events := [SEvent.trackEv "Order Completed" []] }).1.deliveries = [1, 2] ∧
    (flush { baseState with
        plugins := [⟨1, true, false, false, []⟩, ⟨2, true, true, false, []⟩,
                    ⟨3, true, false, false, []⟩],
        events := [SEvent.trackEv "Order Completed" []] }).2 = some 2 := by
  have h := C3_flush_throw_not_isolated
    { baseState with
        plugins := [⟨1, true, false, false, []⟩, ⟨2, true, true, false, []⟩,
                    ⟨3, true, false, false, []⟩],
        events := [SEvent.trackEv "Order Completed" []] }
    rfl rfl (by decide)
  exact ⟨h.1, h.2.1⟩

/-- C4 (amended): with flushInterval n ≥ 1 and a zero elapsed counter,
n−1 ticks only accumulate the counter and trigger no flush, and the n-th
tick calls flush exactly once. A flush that proceeds (not in flight, not
destroyed) leaves the counter at 0; a flush skipped because one is in
flight leaves the counter unchanged (hence 0, since the in-flight flush
zeroed it on entry); but a flush skipped because the client is destroyed
leaves the counter unchanged and possibly nonzero — the destroyed check
returns before the counter reset, so the claim's destroyed case is false. -/
theorem C4_flush_interval_and_counter_reset (s u : ClientState) (n : Nat)
    (h0 : s.secondsElapsed = 0) (hfi : s.flushInterval = n) (h1 : 1 ≤ n)
    (hnr : ∀ p ∈ s.plugins, p.reflushes = false) :
    (∀ k, k ≤ n - 1 → tickN k s = { s with secondsElapsed := k }) ∧
    (tickN n s).flushCalls = s.flushCalls + 1 ∧
    (u.isPendingUpload = false → u.destroyed = false → (flush u).1.secondsElapsed = 0) ∧
    (u.isPendingUpload = true ∨ u.destroyed = true →
      (flush u).1.secondsElapsed = u.secondsElapsed) :=
  ⟨tickN_counts s n h0 hfi h1, tickN_triggers s n h0 hfi h1 hnr,
    fun hp hd => flush_secondsElapsed_zero u hp hd,
    fun h => flush_skip_secondsElapsed u h⟩

/-- C4 counterexample: a flush on a destroyed client with a nonzero elapsed
counter leaves the counter at 3, not 0 as the claim states for the
destroyed-skip case. -/
theorem C4_counterexample :
    ({ baseState with destroyed := true, secondsElapsed := 3 } : ClientState).destroyed
        = true ∧
    (flush { baseState with destroyed := true, secondsElapsed := 3 }).1.secondsElapsed
        = 3 := by
  decide

/-- C4 witness: with flushInterval 2 the second tick calls flush once, and
a live flush leaves the counter at 0. -/
theorem C4_witness :
    (tickN 2 { baseState with flushInterval := 2 }).flushCalls = 1 ∧
    (flush baseState).1.secondsElapsed = 0 := by
  have h := C4_flush_interval_and_counter_reset
    { baseState with flushInterval := 2 } baseState 2 rfl rfl (by decide) (by decide)
  exact ⟨h.2.1, h.2.2.1 rfl rfl⟩

/-- C5 (amended): a flush() call made while another flush is in flight is a
no-op (no delivery, no exception, no state change beyond the ghost call
counter); and over a non-empty buffer — PROVIDED no flush-capable plugin
throws — each flush-capable plugin receives exactly one delivery attempt
in the cycle, in order, no matter which plugins reentrantly request
further flushes during it. (As stated the claim is false: a throwing
plugin leaves the plugins after it with zero delivery attempts in that
cycle — see the counterexample.) -/
theorem C5_inflight_noop_one_delivery_per_plugin (f : Nat) (s t : ClientState) :
    (s.isPendingUpload = true →
      flushAux (f + 1) s = ({ s with flushCalls := s.flushCalls + 1 }, none)) ∧
    (t.isPendingUpload = false → t.destroyed = false → 0 < t.events.length →
      (∀ p ∈ flushPlugins t, p.throws = false) →
      (flush t).1.deliveries = t.deliveries ++ (flushPlugins t).map Plugin.pid) := by
  refine ⟨fun hp => flushAux_pending f s hp, fun hp hd he hnt => ?_⟩
  obtain ⟨hdel, _⟩ := flush_deliveries_spec t hp hd he
  rw [hdel, upToThrow_noThrow _ hnt]

/-- C5 counterexample: with a throwing first plugin, the second
flush-capable plugin receives zero delivery attempts in the cycle, not
exactly one as the claim states. -/
theorem C5_counterexample :
    (flush { baseState with
        plugins := [⟨7, true, true, false, []⟩, ⟨8, true, false, false, []⟩],
        events := [SEvent.trackEv "Promotion Viewed" []] }).1.deliveries = [7] ∧
    8 ∉ (flush { baseState with
        plugins := [⟨7, true, true, false, []⟩, ⟨8, true, false, false, []⟩],
        events := [SEvent.trackEv "Promotion Viewed" []] }).1.deliveries := by
  decide

/-- C5 witness: a reentrant flush from a mid-flight state is a no-op, and a
cycle over two non-throwing plugins — the first of which reentrantly
requests another flush — still delivers to each exactly once. -/
theorem C5_witness :
    flushAux 1 { baseState with isPendingUpload := true }
      = ({ baseState with isPendingUpload := true, flushCalls := 1 }, none) ∧
    (flush { baseState with
        plugins := [⟨4, true, false, true, []⟩, ⟨5, true, false, false, []⟩],
        events := [SEvent.trackEv "Cart Viewed" []] }).1.deliveries = [4, 5] := by
  have h := C5_inflight_noop_one_delivery_per_plugin 0
    { baseState with isPendingUpload := true }
    { baseState with
        plugins := [⟨4, true, false, true, []⟩, ⟨5, true, false, false, []⟩],
        events := [SEvent.trackEv "Cart Viewed" []] }
  exact ⟨h.1 rfl, h.2 rfl rfl (by decide) (by decide)⟩

/-! ## Identity-operation lemmas -/

theorem trLookup_append (xs ys : Traits) (k : String) :
    trLookup (xs ++ ys) k
      = match trLookup xs k with
        | some v => some v
        | none => trLookup ys k := by
  induction xs with
  | nil => rfl
  | cons kv rest ih =>
    cases kv with
    | mk a b =>
      by_cases ha : a = k
      · simp [trLookup, ha]
      · simp [trLookup, ha, ih]

theorem trLookup_map_override (b : Traits) :
    ∀ (a : Traits) (k : String),
      trLookup (a.map (fun kv =>
          (kv.1, match trLookup b kv.1 with | some v => v | none => kv.2))) k
        = match trLookup a k with
          | some v => some (match trLookup b k with | some w => w | none => v)
          | none => none := by
  intro a
  induction a with
  | nil => intro k; rfl
  | cons kv rest ih =>
    intro k
    cases kv with
    | mk x y =>
      by_cases hx : x = k
      · subst hx
        simp [trLookup]
      · simp [trLookup, hx, ih]

theorem trLookup_filter_not_in (a : Traits) :
    ∀ (b : Traits) (k : String),
      trLookup (b.filter (fun kv => (trLookup a kv.1).isNone)) k
        = match trLookup a k with
          | none => trLookup b k
          | some _ => none := by
  intro b
  induction b with
  | nil =>
    intro k
    cases trLookup a k <;> rfl
  | cons kv rest ih =>
    intro k
    cases kv with
    | mk x y =>
      by_cases hax : (trLookup a x).isNone = true
      · rw [show List.filter (fun kv => (trLookup a kv.1).isNone) ((x, y) :: rest)
              = (x, y) :: List.filter (fun kv => (trLookup a kv.1).isNone) rest from by
            simp [List.filter, hax]]
        by_cases hx : x = k
        · subst hx
          have hnone : trLookup a x = none := Option.isNone_iff_eq_none.mp hax
          simp [trLookup, hnone]
        · simp [trLookup, hx, ih]
      · rw [show List.filter (fun kv => (trLookup a kv.1).isNone) ((x, y) :: rest)
              = List.filter (fun kv => (trLookup a kv.1).isNone) rest from by
            simp [List.filter, hax]]
        rw [ih k]
        cases h' : trLookup a k with
        | some w => simp [h']
        | none =>
          simp only [h']
          by_cases hx : x = k
          · subst hx
            exact absurd (by simp [h']) hax
          · simp [trLookup, hx]

/-- Key-by-key content of the JS object spread: a key takes b's value when
b has it, else a's. -/
theorem trLookup_spread (a b : Traits) (k : String) :
    trLookup (spread a b) k
      = match trLookup b k with | some v => some v | none => trLookup a k := by
  unfold spread
  rw [trLookup_append, trLookup_map_override]
  cases ha : trLookup a k <;> cases hb : trLookup b k <;>
    simp [ha, hb, trLookup_filter_not_in a b k]

theorem spread_nil (b : Traits) : spread [] b = b := by
  unfold spread
  simp [trLookup]

/-- C6 (amended): for identify(u1, t1) then identify(u2, t2) on a client
with NO stored traits at the first call, the stored traits afterwards are
t1 spread-overridden with t2 (keys in t2 win, keys only in t1 persist),
the stored user id is u2, the second dispatched identify event carries
exactly the merged trait set and no user-id field, and the merged state is
persisted before dispatch — witnessed by the second event's identity stamp
already carrying u2. (As stated, over arbitrary prior state, the claim is
false: traits stored before the pair of calls persist into the merge — see
the counterexample.) -/
theorem C6_identify_merges_overrides_persists_before_dispatch
    (s : ClientState) (u1 u2 : String) (t1 t2 : Traits)
    (h : s.userInfo.traits = none) :
    (identify (identify s u1 (some t1)) u2 (some t2)).userInfo.traits
        = some (spread t1 t2) ∧
    (∀ k, trLookup (spread t1 t2) k
        = match trLookup t2 k with | some v => some v | none => trLookup t1 k) ∧
    (identify (identify s u1 (some t1)) u2 (some t2)).userInfo.userId = some u2 ∧
    (identify (identify s u1 (some t1)) u2 (some t2)).processed
      = (identify s u1 (some t1)).processed
        ++ [⟨SEvent.identifyEv (spread t1 t2), some u2, s.userInfo.anonymousId⟩] := by
  have e1 : spread (s.userInfo.traits.getD []) ((some t1).getD []) = t1 := by
    rw [h]
    exact spread_nil t1
  have h1 : identify s u1 (some t1)
      = { s with userInfo := ⟨s.userInfo.anonymousId, some u1, some t1⟩,
                 processed := s.processed
                   ++ [⟨SEvent.identifyEv t1, some u1, s.userInfo.anonymousId⟩] } := by
    unfold identify process
    rw [e1]
  refine ⟨?_, fun k => trLookup_spread t1 t2 k, ?_, ?_⟩
  · rw [h1]; rfl
  · rw [h1]; rfl
  · rw [h1]; rfl

/-- C6 counterexample: with traits already stored before the pair of
identify calls, the stored traits after the pair are NOT t1 overridden with
t2 — the pre-existing key persists too. -/
theorem C6_counterexample :
    (identify (identify { baseState with userInfo := ⟨100, none, some [("c", TVal.num 5)]⟩ }
          "u1" (some [("a", TVal.num 0)]))
        "u2" (some [("a", TVal.num 1)])).userInfo.traits
      ≠ some (spread [("a", TVal.num 0)] [("a", TVal.num 1)]) := by
  decide

/-- C6 witness: the spec's own example, from a fresh client. -/
theorem C6_witness :
    (identify (identify baseState "u1" (some [("a", TVal.num 0), ("b", TVal.num 2)]))
        "u2" (some [("a", TVal.num 1)])).userInfo.traits
      = some [("a", TVal.num 1), ("b", TVal.num 2)] ∧
    (identify (identify baseState "u1" (some [("a", TVal.num 0), ("b", TVal.num 2)]))
        "u2" (some [("a", TVal.num 1)])).userInfo.userId = some "u2" := by
  have h := C6_identify_merges_overrides_persists_before_dispatch
    baseState "u1" "u2" [("a", TVal.num 0), ("b", TVal.num 2)] [("a", TVal.num 1)] rfl
  exact ⟨h.1, h.2.2.1⟩

/-- C7 (confirmed): alias(newUserId) builds the alias event from the
identifiers captured BEFORE the store update — the event's old-user-id
field is the pre-call stored user id and its anonymous-id field the
pre-call anonymous id — and only then overwrites the stored user id with
newUserId; the dispatched event's identity stamp already carries the new
user id, the event payload the old one. -/
theorem C7_alias_event_carries_precall_user_id (s : ClientState) (newUserId : String) :
    (aliasCall s newUserId).processed
      = s.processed
        ++ [⟨SEvent.aliasEv s.userInfo.anonymousId s.userInfo.userId newUserId,
             some newUserId, s.userInfo.anonymousId⟩] ∧
    (aliasCall s newUserId).userInfo.userId = some newUserId ∧
    (aliasCall s newUserId).userInfo.anonymousId = s.userInfo.anonymousId ∧
    (aliasCall s newUserId).userInfo.traits = s.userInfo.traits :=
  ⟨rfl, rfl, rfl, rfl⟩

/-- C8 (confirmed): reset() stores a freshly issued anonymous identifier —
different from the prior one, by the generator's freshness (prior ids are
below the counter) — clears userId and traits, and leaves the buffered
events, the registered plugins and the processed trace unchanged. -/
theorem C8_reset_fresh_anonymous_id_frame (s : ClientState)
    (h : s.userInfo.anonymousId < s.uuidCounter) :
    (reset s).userInfo.anonymousId ≠ s.userInfo.anonymousId ∧
    (reset s).userInfo.userId = none ∧
    (reset s).userInfo.traits = none ∧
    (reset s).events = s.events ∧
    (reset s).plugins = s.plugins ∧
    (reset s).processed = s.processed := by
  refine ⟨?_, rfl, rfl, rfl, rfl, rfl⟩
  show s.uuidCounter ≠ s.userInfo.anonymousId
  exact ne_of_gt h

/-- C8 witness: reset on the base state issues anonymous id 101, distinct
from the prior 100, and clears user id and traits. -/
theorem C8_witness :
    (reset baseState).userInfo.anonymousId ≠ baseState.userInfo.anonymousId ∧
    (reset baseState).userInfo.userId = none ∧
    (reset baseState).events = baseState.events := by
  have h := C8_reset_fresh_anonymous_id_frame baseState (by decide)
  exact ⟨h.1, h.2.1, h.2.2.2.1⟩

/-! ## Lifecycle-tracker lemmas -/

theorem checkInstalledVersion_disabled (s : ClientState) (current : AppInfo)
    (hf : s.trackAppLifecycleEvents = false) :
    checkInstalledVersion s current = { s with storedContext := some ⟨some current⟩ } := by
  simp [checkInstalledVersion, hf]

theorem checkInstalledVersion_fresh (s : ClientState) (current : AppInfo)
    (hf : s.trackAppLifecycleEvents = true)
    (hc : s.storedContext.bind Ctx.app = none) :
    checkInstalledVersion s current
      = { s with storedContext := some ⟨some current⟩,
                 processed := s.processed
                   ++ [⟨installedEvent current, s.userInfo.userId, s.userInfo.anonymousId⟩,
                       ⟨openedAtLaunchEvent current, s.userInfo.userId,
                        s.userInfo.anonymousId⟩] } := by
  have hf' : ¬(s.trackAppLifecycleEvents = false) := by simp [hf]
  rcases hs : s.storedContext with _ | ⟨app⟩
  · simp [checkInstalledVersion, hf', hs, process, List.append_assoc]
  · rcases app with _ | pa
    · simp [checkInstalledVersion, hf', hs, process, List.append_assoc]
    · exfalso
      rw [hs] at hc
      simp at hc

theorem checkInstalledVersion_updated (s : ClientState) (current previousApp : AppInfo)
    (hf : s.trackAppLifecycleEvents = true)
    (hs : s.storedContext = some ⟨some previousApp⟩)
    (hv : current.version ≠ previousApp.version) :
    checkInstalledVersion s current
      = { s with storedContext := some ⟨some current⟩,
                 processed := s.processed
                   ++ [⟨updatedEvent current previousApp, s.userInfo.userId,
                        s.userInfo.anonymousId⟩,
                       ⟨openedAtLaunchEvent current, s.userInfo.userId,
                        s.userInfo.anonymousId⟩] } := by
  have hf' : ¬(s.trackAppLifecycleEvents = false) := by simp [hf]
  simp [checkInstalledVersion, hf', hs, hv, process, List.append_assoc]

theorem checkInstalledVersion_same (s : ClientState) (current previousApp : AppInfo)
    (hf : s.trackAppLifecycleEvents = true)
    (hs : s.storedContext = some ⟨some previousApp⟩)
    (hv : current.version = previousApp.version) :
    checkInstalledVersion s current
      = { s with storedContext := some ⟨some current⟩,
                 processed := s.processed
                   ++ [⟨openedAtLaunchEvent current, s.userInfo.userId,
                        s.userInfo.anonymousId⟩] } := by
  have hf' : ¬(s.trackAppLifecycleEvents = false) := by simp [hf]
  simp [checkInstalledVersion, hf', hs, hv, process]

/-- C9 (confirmed): the startup check persists the fresh context snapshot
in every case (even with lifecycle tracking disabled, in which case nothing
is emitted); with tracking enabled it emits, in order, Installed then
Opened(from_background = false) when there is no persisted prior app
context, Updated (carrying current and previous version/build) then
Opened(from_background = false) when the version changed, and only
Opened(from_background = false) when the version is unchanged. -/
theorem C9_startup_check (s : ClientState) (current : AppInfo) :
    (checkInstalledVersion s current).storedContext = some ⟨some current⟩ ∧
    (s.trackAppLifecycleEvents = false →
      (checkInstalledVersion s current).processed = s.processed) ∧
    (s.trackAppLifecycleEvents = true → s.storedContext.bind Ctx.app = none →
      (checkInstalledVersion s current).processed
        = s.processed
          ++ [⟨installedEvent current, s.userInfo.userId, s.userInfo.anonymousId⟩,
              ⟨openedAtLaunchEvent current, s.userInfo.userId, s.userInfo.anonymousId⟩]) ∧
    (∀ previousApp : AppInfo, s.trackAppLifecycleEvents = true →
      s.storedContext = some ⟨some previousApp⟩ →
      current.version ≠ previousApp.version →
      (checkInstalledVersion s current).processed
        = s.processed
          ++ [⟨updatedEvent current previousApp, s.userInfo.userId,
               s.userInfo.anonymousId⟩,
              ⟨openedAtLaunchEvent current, s.userInfo.userId, s.userInfo.anonymousId⟩]) ∧
    (∀ previousApp : AppInfo, s.trackAppLifecycleEvents = true →
      s.storedContext = some ⟨some previousApp⟩ →
      current.version = previousApp.version →
      (checkInstalledVersion s current).processed
        = s.processed
          ++ [⟨openedAtLaunchEvent current, s.userInfo.userId,
               s.userInfo.anonymousId⟩]) := by
  refine ⟨?_, ?_, ?_, ?_, ?_⟩
  · by_cases hf : s.trackAppLifecycleEvents = false
    · rw [checkInstalledVersion_disabled s current hf]
    · have hf' : s.trackAppLifecycleEvents = true := by
        revert hf; cases s.trackAppLifecycleEvents <;> simp
      rcases hs : s.storedContext with _ | ⟨app⟩
      · rw [checkInstalledVersion_fresh s current hf' (by rw [hs]; rfl)]
      · rcases app with _ | pa
        · rw [checkInstalledVersion_fresh s current hf' (by rw [hs]; rfl)]
        · by_cases hv : current.version = pa.version
          · rw [checkInstalledVersion_same s current pa hf' hs hv]
          · rw [checkInstalledVersion_updated s current pa hf' hs hv]
  · intro hf
    rw [checkInstalledVersion_disabled s current hf]
  · intro hf hc
    rcases hs : s.storedContext with _ | ⟨app⟩
    · rw [checkInstalledVersion_fresh s current hf (by rw [hs]; rfl)]
    · rcases app with _ | pa
      · rw [checkInstalledVersion_fresh s current hf (by rw [hs]; rfl)]
      · exfalso
        rw [hs] at hc
        simp at hc
  · intro pa hf hs hv
    rw [checkInstalledVersion_updated s current pa hf hs hv]
  · intro pa hf hs hv
    rw [checkInstalledVersion_same s current pa hf hs hv]

/-- C9 witness: first-ever startup of the base client (no persisted
context) persists the snapshot and emits Installed then
Opened(from_background = false). -/
theorem C9_witness :
    (checkInstalledVersion baseState ⟨"2.0", "45"⟩).storedContext
        = some ⟨some ⟨"2.0", "45"⟩⟩ ∧
    (checkInstalledVersion baseState ⟨"2.0", "45"⟩).processed
        = [⟨installedEvent ⟨"2.0", "45"⟩, none, 100⟩,
           ⟨openedAtLaunchEvent ⟨"2.0", "45"⟩, none, 100⟩] := by
  have h := C9_startup_check baseState ⟨"2.0", "45"⟩
  exact ⟨h.1, h.2.2.1 rfl rfl⟩

/-- C10 (confirmed): with lifecycle tracking enabled, an inactive- or
background-to-active signal emits exactly one Application Opened event with
from_background = true; an active-to-inactive/background signal emits
exactly one Application Backgrounded event; any other transition pair emits
nothing; and the last-known app state is set to the new value after every
signal. -/
theorem C10_lifecycle_transitions (s : ClientState) (next : AppSt)
    (hf : s.trackAppLifecycleEvents = true) :
    ((s.appState = .inactive ∨ s.appState = .background) → next = .active →
      handleAppStateChange s next
        = { s with appState := next,
                   processed := s.processed
                     ++ [⟨openedFromBackgroundEvent s.storedContext, s.userInfo.userId,
                          s.userInfo.anonymousId⟩] }) ∧
    (s.appState = .active → (next = .inactive ∨ next = .background) →
      handleAppStateChange s next
        = { s with appState := next,
                   processed := s.processed
                     ++ [⟨backgroundedEvent, s.userInfo.userId,
                          s.userInfo.anonymousId⟩] }) ∧
    (¬((s.appState = .inactive ∨ s.appState = .background) ∧ next = .active) →
      ¬(s.appState = .active ∧ (next = .inactive ∨ next = .background)) →
      handleAppStateChange s next = { s with appState := next }) ∧
    (handleAppStateChange s next).appState = next := by
  refine ⟨?_, ?_, ?_, rfl⟩
  · intro h1 h2
    simp [handleAppStateChange, hf, h1, h2, process]
  · intro h1 h2
    simp [handleAppStateChange, hf, h1, h2, process]
  · intro h1 h2
    simp [handleAppStateChange, hf, h1, h2]

/-- C10 witness: a background-to-active signal on the base client emits
exactly one Opened(from_background = true) and updates the last-known
state. -/
theorem C10_witness :
    handleAppStateChange { baseState with appState := AppSt.background } AppSt.active
      = { baseState with appState := AppSt.active,
                         processed := [⟨openedFromBackgroundEvent none, none, 100⟩] } := by
  have h := C10_lifecycle_transitions { baseState with appState := AppSt.background }
      AppSt.active rfl
  exact h.1 (Or.inr rfl) rfl

end Analytics
